import Mathlib

/-!
# Verification of the irrigation decision workflow

Shallow embedding of the LangGraph irrigation agent found in
`irrigation_agent.py` (called B below, for "base") and
`irrigation_agent_enhanced.py` (called E below, for "enhanced").

Both files build the same four-node LangGraph state machine
(`retrieve_field -> fetch_sensor -> validate / maintenance`) over a
`TypedDict` state whose `errors` channel is declared
`Annotated[list[str], operator.add]`.  Under LangGraph semantics every
key of the dict a node returns is written to its channel; a channel with
an `operator.add` reducer is updated by `current ++ returned`.  Since
every node in both files returns `{**state, ...}`, the `errors` value it
returns is either the explicitly listed singleton (for a new error) or
the node's incoming `errors` list (inherited from `**state`); in the
latter case the reducer appends the whole accumulated list to itself.
`applyUpdate` below models exactly this reducer step.

The two files differ only in the wording of messages, in the maintenance
reason prefix, and in the confidence policy; everything else (branch
structure, thresholds, retry logic, routing) is line-for-line the same.
The common workflow is therefore defined once, parametrised by an
`AgentMsgs` record of message builders, and instantiated twice
(`msgsE` / `msgsB`, `decideE` / `decideB`).

Numbers: Python floats are modelled as `ℚ` (all constants in the
repository are decimal literals, exactly representable).  Python's
string rendering of floats is modelled by `pyFloatRepr` (plain
`f"{x}"`, exact for decimally-representable values) and `fmtFix1`
(`f"{x:.1f}"`, round-half-even to one decimal).  The `timestamp` field
of the enhanced `DecisionOutput` is wall-clock time and is omitted from
the model; every claim about report equality is stated modulo it.
-/

namespace Irrigation

/-- The `IrrigationDecision` enum, `irrigation_agent_enhanced.py` lines 35-38
and `irrigation_agent.py` lines 24-28. -/
inductive IrrigationDecision where
  | IRRIGATE
  | DO_NOT_IRRIGATE
  | MAINTENANCE_REQUIRED
deriving DecidableEq, Repr

/-- The `CropType` enum, `irrigation_agent_enhanced.py` lines 41-46. -/
inductive CropType where
  | WHEAT
  | CORN
  | TOMATO
  | COTTON
  | POTATO
deriving DecidableEq, Repr

/-- The `FieldInfo` model, `irrigation_agent_enhanced.py` lines 49-55. -/
structure FieldInfo where
  field_id : Int
  crop_type : CropType
  min_moisture : ℚ
  max_moisture : ℚ
  optimal_moisture : ℚ
  soil_type : String
deriving DecidableEq, Repr

/-- Workflow stage labels.  The Python files store the stage as a string
(`"failed"`, `"retry"`, ... in E; `"field_lookup_failed"`,
`"sensor_retry"`, ... in B); only routing ever inspects it and both
files route the corresponding labels identically, so one inductive type
covers both. -/
inductive Stage where
  | start
  | fieldFail
  | fieldOk
  | retry
  | timeoutFail
  | hwFail
  | sensorOk
  | done
deriving DecidableEq, Repr

/-- The `AgentState` TypedDict, `irrigation_agent_enhanced.py` lines 74-84
and `irrigation_agent.py` lines 74-84. -/
structure AgentState where
  field_id : Int
  field_info : Option FieldInfo
  moisture_reading : Option ℚ
  decision : Option IrrigationDecision
  reason : String
  errors : List String
  sensor_attempts : Nat
  max_sensor_retries : Nat
  stage : Stage
deriving DecidableEq, Repr

/-- The `DecisionOutput` model, `irrigation_agent_enhanced.py` lines 58-67
and `irrigation_agent.py` lines 58-67.  The enhanced file's wall-clock
`timestamp` field is omitted (claims compare reports modulo it).  The
`decision` field is kept optional so that the guarantee "the decision
field is never left unset" is a provable statement rather than a typing
artefact: pydantic would raise a validation error if the final graph
state carried `decision = None`. -/
structure DecisionOutput where
  field_id : Int
  decision : Option IrrigationDecision
  current_moisture : Option ℚ
  optimal_range : Option (ℚ × ℚ)
  reason : String
  confidence : String
  sensor_attempts : Nat
  errors : List String
deriving DecidableEq, Repr

/-- Decimal digits of the fractional part `n / d`, most significant
first, up to `fuel` digits (exact whenever the expansion terminates,
which it does for every constant in the repository). -/
def fracDigits : Nat → Nat → Nat → String
  | 0, _, _ => ""
  | fuel + 1, n, d =>
      if n = 0 then ""
      else toString (n * 10 / d) ++ fracDigits fuel (n * 10 % d) d

/-- Python `f"{x}"` / `str(x)` for a float, modelled on `ℚ`: sign,
integer part, a dot, then the fractional digits (`".0"` when the value
is integral) — e.g. `35 ↦ "35.0"`, `-50 ↦ "-50.0"`, `47.5 ↦ "47.5"`.
Exact for every decimally-representable value (all values the claims
touch); truncated at 17 fractional digits otherwise. -/
def pyFloatRepr (q : ℚ) : String :=
  let sign := if q < 0 then "-" else ""
  let n := q.num.natAbs
  let d := q.den
  let frac := fracDigits 17 (n % d) d
  sign ++ toString (n / d) ++ "." ++ (if frac = "" then "0" else frac)

/-- Round `10 * q` to the nearest integer, ties to even — the rounding
Python's fixed-point float formatting uses.  Written with integer
numerator/denominator arithmetic (`Int.fdiv` is floor division) so that
it evaluates inside the kernel; it is the exact rational
round-half-even. -/
def roundTenthsHalfEven (q : ℚ) : Int :=
  let N := 10 * q.num
  let D := (q.den : Int)
  let fl := N.fdiv D
  let r := N - D * fl
  if 2 * r < D then fl
  else if D < 2 * r then fl + 1
  else if fl % 2 = 0 then fl else fl + 1

/-- Python `f"{x:.1f}"` on `ℚ`: one fractional digit, round half to
even. -/
def fmtFix1 (q : ℚ) : String :=
  let n := roundTenthsHalfEven q
  let sign := if n < 0 then "-" else ""
  let m := n.natAbs
  sign ++ toString (m / 10) ++ "." ++ toString (m % 10)

/-- Exact rational subtraction via `mkRat` (identical to `a - b` on `ℚ`,
see `qsub_eq`, but kernel-computable: Mathlib's field operations on `ℚ`
are irreducible). -/
def qsub (a b : ℚ) : ℚ :=
  mkRat (a.num * (b.den : Int) - b.num * (a.den : Int)) (a.den * b.den)

/-- Exact rational absolute value via `mkRat` (identical to `|q|`, see
`qabs_eq`, but kernel-computable). -/
def qabs (q : ℚ) : ℚ :=
  mkRat (q.num.natAbs : Int) q.den

/-- The message builders in which the two implementation files differ.
Every other part of the workflow is shared verbatim. -/
structure AgentMsgs where
  notFoundMsg : Int → String
  timeoutRetryMsg : Nat → String
  timeoutFailMsg : Nat → String
  invalidMsg : ℚ → String
  maintReason : String → String
  reasonBelowMin : ℚ → FieldInfo → String
  reasonAboveMax : ℚ → FieldInfo → String
  reasonBelowOpt : ℚ → FieldInfo → String
  reasonInRange : ℚ → FieldInfo → String

/-- Messages of `irrigation_agent_enhanced.py` (nodes at lines 156-260;
the maintenance reason is the bare error join). -/
def msgsE : AgentMsgs where
  notFoundMsg fid := "Field " ++ toString fid ++ " not found"
  timeoutRetryMsg n := "Sensor timeout attempt " ++ toString n
  timeoutFailMsg n := "Sensor timeout after " ++ toString n ++ " attempts"
  invalidMsg v := "Invalid sensor value " ++ pyFloatRepr v ++ "%"
  maintReason r := r
  reasonBelowMin m f :=
    "Moisture " ++ fmtFix1 m ++ "% below minimum " ++ pyFloatRepr f.min_moisture ++ "%"
  reasonAboveMax m f :=
    "Moisture " ++ fmtFix1 m ++ "% above maximum " ++ pyFloatRepr f.max_moisture ++ "%"
  reasonBelowOpt m f :=
    "Moisture " ++ fmtFix1 m ++ "% below optimal " ++ pyFloatRepr f.optimal_moisture ++ "%"
  reasonInRange m _ := "Moisture " ++ fmtFix1 m ++ "% within optimal range"

/-- Messages of `irrigation_agent.py` (nodes at lines 183-325; the
maintenance reason carries a fixed prefix). -/
def msgsB : AgentMsgs where
  notFoundMsg fid := "Field #" ++ toString fid ++ " not found in database"
  timeoutRetryMsg n := "Sensor timeout on attempt " ++ toString n
  timeoutFailMsg n := "Sensor timeout after " ++ toString n ++ " attempts"
  invalidMsg v := "Sensor hardware error: impossible value " ++ pyFloatRepr v ++ "%"
  maintReason r := "System error requires manual intervention: " ++ r
  reasonBelowMin m f :=
    "Moisture " ++ fmtFix1 m ++ "% is below minimum threshold " ++ pyFloatRepr f.min_moisture ++ "%"
  reasonAboveMax m f :=
    "Moisture " ++ fmtFix1 m ++ "% exceeds maximum threshold " ++ pyFloatRepr f.max_moisture ++ "%"
  reasonBelowOpt m f :=
    "Moisture " ++ fmtFix1 m ++ "% is within range but below optimal "
      ++ pyFloatRepr f.optimal_moisture ++ "%"
  reasonInRange m f :=
    "Moisture " ++ fmtFix1 m ++ "% is optimal (target: " ++ pyFloatRepr f.optimal_moisture ++ "%)"

/-- One LangGraph channel-update step: `upd` is the dict the node
returned (all keys present, because every node returns `{**state, ...}`);
plain channels take the returned value, the `errors` channel applies the
`operator.add` reducer. -/
def applyUpdate (s upd : AgentState) : AgentState :=
  { upd with errors := s.errors ++ upd.errors }

/-- The `retrieve_field` node, `irrigation_agent_enhanced.py` lines 156-171
(identically structured `retrieve_field_data` in `irrigation_agent.py`
lines 183-206).  The catalog collaborator (`MockDatabase.get_field_info`)
is passed in, per the spec's external-collaborator model.  The `errors`
field of the result is the value of the `"errors"` key in the returned
dict. -/
def retrieve_field (msgs : AgentMsgs) (cat : Int → Option FieldInfo)
    (s : AgentState) : AgentState :=
  match cat s.field_id with
  | none =>
      { s with errors := [msgs.notFoundMsg s.field_id], stage := Stage.fieldFail }
  | some fi =>
      { s with field_info := some fi, stage := Stage.fieldOk }

/-- The `fetch_sensor` node, `irrigation_agent_enhanced.py` lines 174-214
(identically structured `fetch_sensor_data` in `irrigation_agent.py`
lines 209-257).  `reading` is this attempt's response of the sensor
collaborator (`None` = timeout). -/
def fetch_sensor (msgs : AgentMsgs) (reading : Option ℚ)
    (s : AgentState) : AgentState :=
  let attempts := s.sensor_attempts + 1
  match reading with
  | none =>
      if attempts < s.max_sensor_retries then
        { s with sensor_attempts := attempts,
                 errors := [msgs.timeoutRetryMsg attempts],
                 stage := Stage.retry }
      else
        { s with sensor_attempts := attempts,
                 errors := [msgs.timeoutFailMsg attempts],
                 stage := Stage.timeoutFail }
  | some r =>
      if r < 0 ∨ 100 < r then
        { s with moisture_reading := some r,
                 sensor_attempts := attempts,
                 errors := [msgs.invalidMsg r],
                 stage := Stage.hwFail }
      else
        { s with moisture_reading := some r,
                 sensor_attempts := attempts,
                 stage := Stage.sensorOk }

/-- The `validate` node, `irrigation_agent_enhanced.py` lines 217-245
(identically structured `validate_and_decide` in `irrigation_agent.py`
lines 260-304; the `confidence` local computed there is dead code — it
is never stored in the state).  When `field_info` or `moisture_reading`
is `None` the Python code raises a `TypeError`; that branch is modelled
as leaving the state unchanged, so the `decision` field stays `none`
there, and the termination/totality theorem proves it unreachable. -/
def validate (msgs : AgentMsgs) (s : AgentState) : AgentState :=
  match s.field_info, s.moisture_reading with
  | some field, some moisture =>
      if moisture < field.min_moisture then
        { s with decision := some IrrigationDecision.IRRIGATE,
                 reason := msgs.reasonBelowMin moisture field,
                 stage := Stage.done }
      else if field.max_moisture < moisture then
        { s with decision := some IrrigationDecision.DO_NOT_IRRIGATE,
                 reason := msgs.reasonAboveMax moisture field,
                 stage := Stage.done }
      else if moisture < field.optimal_moisture then
        { s with decision := some IrrigationDecision.IRRIGATE,
                 reason := msgs.reasonBelowOpt moisture field,
                 stage := Stage.done }
      else
        { s with decision := some IrrigationDecision.DO_NOT_IRRIGATE,
                 reason := msgs.reasonInRange moisture field,
                 stage := Stage.done }
  | _, _ => s

/-- The `maintenance` node, `irrigation_agent_enhanced.py` lines 248-260 and
`handle_maintenance_required` in `irrigation_agent.py` lines 307-325
(the only difference is the reason prefix, captured by
`msgs.maintReason`). -/
def maintenance (msgs : AgentMsgs) (s : AgentState) : AgentState :=
  { s with decision := some IrrigationDecision.MAINTENANCE_REQUIRED,
           reason := msgs.maintReason (String.intercalate "; " s.errors),
           stage := Stage.done }

/-- The `fetch_sensor` self-loop: LangGraph re-enters `fetch_sensor`
while `route_after_sensor` returns the retry label
(`irrigation_agent_enhanced.py` lines 272-278, `irrigation_agent.py`
lines 339-348).  `fuel` is an upper bound on the number of iterations;
the driver passes `max_sensor_retries + 1` and the theorems prove the
loop always exits by its own condition before the fuel runs out, i.e.
that the fuel is not an observable part of the model. -/
def runSensorLoop (msgs : AgentMsgs) (sensor : Nat → Option ℚ) :
    Nat → AgentState → AgentState
  | 0, s => s
  | fuel + 1, s =>
      let s1 := applyUpdate s (fetch_sensor msgs (sensor s.sensor_attempts) s)
      if s1.stage = Stage.retry then runSensorLoop msgs sensor fuel s1 else s1

/-- The `route_after_sensor` conditional edge
(`irrigation_agent_enhanced.py` lines 272-278, `irrigation_agent.py`
lines 339-348) applied once the self-loop has finished: the retry label
would re-enter the loop (it is proved never to survive the loop), the
two failure stages route to `maintenance`, everything else routes to
`validate`. -/
def routeAfterLoop (msgs : AgentMsgs) (s2 : AgentState) : AgentState :=
  if s2.stage = Stage.retry then s2
  else if s2.stage = Stage.timeoutFail ∨ s2.stage = Stage.hwFail then
    applyUpdate s2 (maintenance msgs s2)
  else
    applyUpdate s2 (validate msgs s2)

/-- One `graph.invoke` run: entry point `retrieve_field`, then the
conditional edges `route_after_field` (`irrigation_agent_enhanced.py`
lines 267-269) and `route_after_sensor` (lines 272-278), with `validate`
and `maintenance` both terminal.  `sensor n` is the sensor collaborator's
response to the `n+1`-st read. -/
def runGraph (msgs : AgentMsgs) (cat : Int → Option FieldInfo)
    (sensor : Nat → Option ℚ) (fuel : Nat) (s0 : AgentState) : AgentState :=
  let s1 := applyUpdate s0 (retrieve_field msgs cat s0)
  if s1.stage = Stage.fieldFail then
    applyUpdate s1 (maintenance msgs s1)
  else
    routeAfterLoop msgs (runSensorLoop msgs sensor fuel s1)

/-- The initial state built by `IrrigationAgent.decide`,
`irrigation_agent_enhanced.py` lines 363-373 and `irrigation_agent.py`
lines 443-453. -/
def initState (field_id : Int) (limit : Nat) : AgentState :=
  { field_id := field_id
    field_info := none
    moisture_reading := none
    decision := none
    reason := ""
    errors := []
    sensor_attempts := 0
    max_sensor_retries := limit
    stage := Stage.start }

/-- Function `calculate_confidence`, `irrigation_agent_enhanced.py` lines
285-302. -/
def calculate_confidence (decision : Option IrrigationDecision)
    (moisture : Option ℚ) (field_info : Option FieldInfo) : String :=
  if decision = some IrrigationDecision.MAINTENANCE_REQUIRED then "N/A"
  else
    match moisture, field_info with
    | some m, some f =>
        let diff := qabs (qsub m f.optimal_moisture)
        if diff < 5 then "HIGH"
        else if diff < 10 then "MEDIUM"
        else "LOW"
    | _, _ => "LOW"

/-- The confidence expression of `irrigation_agent.py` line 468:
`"HIGH" if decision != MAINTENANCE_REQUIRED else "N/A"`. -/
def confidenceB (decision : Option IrrigationDecision)
    (_ : Option ℚ) (_ : Option FieldInfo) : String :=
  if decision = some IrrigationDecision.MAINTENANCE_REQUIRED then "N/A" else "HIGH"

/-- Method `IrrigationAgent.decide`, common to `irrigation_agent_enhanced.py`
lines 357-405 and `irrigation_agent.py` lines 427-486: run the graph on
a fresh state, then build the report.  Parametrised by the message set
and the confidence policy, the two points where the files differ. -/
def decideWith (msgs : AgentMsgs)
    (conf : Option IrrigationDecision → Option ℚ → Option FieldInfo → String)
    (cat : Int → Option FieldInfo) (sensor : Nat → Option ℚ)
    (field_id : Int) (limit : Nat) : DecisionOutput :=
  let fs := runGraph msgs cat sensor (limit + 1) (initState field_id limit)
  { field_id := field_id
    decision := fs.decision
    current_moisture := fs.moisture_reading
    optimal_range := fs.field_info.map (fun f => (f.min_moisture, f.max_moisture))
    reason := fs.reason
    confidence := conf fs.decision fs.moisture_reading fs.field_info
    sensor_attempts := fs.sensor_attempts
    errors := fs.errors }

/-- Method `IrrigationAgent.decide` of `irrigation_agent_enhanced.py`. -/
def decideE (cat : Int → Option FieldInfo) (sensor : Nat → Option ℚ)
    (field_id : Int) (limit : Nat) : DecisionOutput :=
  decideWith msgsE calculate_confidence cat sensor field_id limit

/-- Method `IrrigationAgent.decide` of `irrigation_agent.py`. -/
def decideB (cat : Int → Option FieldInfo) (sensor : Nat → Option ℚ)
    (field_id : Int) (limit : Nat) : DecisionOutput :=
  decideWith msgsB confidenceB cat sensor field_id limit

/-- The hard-coded field table (`MockDatabase.FIELDS` plus the
`FieldInfo` construction of `get_field_info`), identical in both files
(`irrigation_agent_enhanced.py` lines 90-113, `irrigation_agent.py`
lines 91-129). -/
def mockCatalog (field_id : Int) : Option FieldInfo :=
  if field_id = 1 then
    some { field_id := 1, crop_type := CropType.WHEAT, min_moisture := 25,
           max_moisture := 45, optimal_moisture := 35, soil_type := "loamy" }
  else if field_id = 2 then
    some { field_id := 2, crop_type := CropType.CORN, min_moisture := 30,
           max_moisture := 50, optimal_moisture := 40, soil_type := "clay" }
  else if field_id = 12 then
    some { field_id := 12, crop_type := CropType.TOMATO, min_moisture := 35,
           max_moisture := 60, optimal_moisture := mkRat 95 2, soil_type := "sandy-loam" }
  else if field_id = 15 then
    some { field_id := 15, crop_type := CropType.COTTON, min_moisture := 20,
           max_moisture := 40, optimal_moisture := 30, soil_type := "sandy" }
  else if field_id = 20 then
    some { field_id := 20, crop_type := CropType.POTATO, min_moisture := 40,
           max_moisture := 65, optimal_moisture := mkRat 105 2, soil_type := "loamy" }
  else none

/-- The pure threshold rule of the `validate` node (decision component
only), used to state properties of the decision without repeating the
branch structure. -/
def thresholdDecision (f : FieldInfo) (m : ℚ) : IrrigationDecision :=
  if m < f.min_moisture then IrrigationDecision.IRRIGATE
  else if f.max_moisture < m then IrrigationDecision.DO_NOT_IRRIGATE
  else if m < f.optimal_moisture then IrrigationDecision.IRRIGATE
  else IrrigationDecision.DO_NOT_IRRIGATE

/-- Boolean list-level test: does `p` occur at the start of the list? -/
def startsWithL : List Char → List Char → Bool
  | [], _ => true
  | _ :: _, [] => false
  | a :: as, b :: bs => a == b && startsWithL as bs

/-- Boolean list-level test: does `p` occur as a contiguous sublist? -/
def hasSubL (p : List Char) : List Char → Bool
  | [] => startsWithL p []
  | b :: bs => startsWithL p (b :: bs) || hasSubL p bs

/-- Predicate form: `strContains s pat = true` iff `pat` occurs as a substring of `s`. -/
def strContains (s pat : String) : Bool :=
  hasSubL pat.data s.data

/-- The graph state after a successful field lookup on a fresh run:
`retrieve_field` has stored the record and set the success stage, and
nothing else has happened yet. -/
def postFieldState (fid : Int) (limit : Nat) (f : FieldInfo) : AgentState :=
  { field_id := fid
    field_info := some f
    moisture_reading := none
    decision := none
    reason := ""
    errors := []
    sensor_attempts := 0
    max_sensor_retries := limit
    stage := Stage.fieldOk }

/-- The sequence of retry-timeout messages recorded by attempts
`a + 1, ..., a + k` (each `NoResponse` attempt below the limit appends
exactly one such message). -/
def retryMsgsFrom (msgs : AgentMsgs) (a k : Nat) : List String :=
  (List.range k).map (fun i => msgs.timeoutRetryMsg (a + i + 1))

/-- Agreement of two agent states on everything except the wording of
`errors` and `reason` (the lists must still have equal length): the
simulation relation between an E-run and a B-run on the same inputs. -/
def EquivER (s t : AgentState) : Prop :=
  s.field_id = t.field_id ∧
  s.field_info = t.field_info ∧
  s.moisture_reading = t.moisture_reading ∧
  s.decision = t.decision ∧
  s.sensor_attempts = t.sensor_attempts ∧
  s.max_sensor_retries = t.max_sensor_retries ∧
  s.stage = t.stage ∧
  s.errors.length = t.errors.length



/-! ## One-step characterisations of the graph nodes -/

theorem step_timeout_retry (msgs : AgentMsgs) (r : Option ℚ) (s : AgentState)
    (hr : r = none) (hlt : s.sensor_attempts + 1 < s.max_sensor_retries) :
    applyUpdate s (fetch_sensor msgs r s) =
      { s with sensor_attempts := s.sensor_attempts + 1,
               errors := s.errors ++ [msgs.timeoutRetryMsg (s.sensor_attempts + 1)],
               stage := Stage.retry } := by
  subst hr
  simp [applyUpdate, fetch_sensor, hlt]

theorem step_timeout_fail (msgs : AgentMsgs) (r : Option ℚ) (s : AgentState)
    (hr : r = none) (hlt : ¬ s.sensor_attempts + 1 < s.max_sensor_retries) :
    applyUpdate s (fetch_sensor msgs r s) =
      { s with sensor_attempts := s.sensor_attempts + 1,
               errors := s.errors ++ [msgs.timeoutFailMsg (s.sensor_attempts + 1)],
               stage := Stage.timeoutFail } := by
  subst hr
  simp [applyUpdate, fetch_sensor, hlt]

theorem step_invalid (msgs : AgentMsgs) (r : Option ℚ) (v : ℚ) (s : AgentState)
    (hr : r = some v) (hv : v < 0 ∨ 100 < v) :
    applyUpdate s (fetch_sensor msgs r s) =
      { s with moisture_reading := some v,
               sensor_attempts := s.sensor_attempts + 1,
               errors := s.errors ++ [msgs.invalidMsg v],
               stage := Stage.hwFail } := by
  subst hr
  simp [applyUpdate, fetch_sensor, hv]

theorem step_valid (msgs : AgentMsgs) (r : Option ℚ) (v : ℚ) (s : AgentState)
    (hr : r = some v) (hv : ¬ (v < 0 ∨ 100 < v)) :
    applyUpdate s (fetch_sensor msgs r s) =
      { s with moisture_reading := some v,
               sensor_attempts := s.sensor_attempts + 1,
               errors := s.errors ++ s.errors,
               stage := Stage.sensorOk } := by
  subst hr
  simp [applyUpdate, fetch_sensor, hv]

theorem runSensorLoop_zero (msgs : AgentMsgs) (sensor : Nat → Option ℚ)
    (s : AgentState) : runSensorLoop msgs sensor 0 s = s := rfl

theorem runSensorLoop_succ (msgs : AgentMsgs) (sensor : Nat → Option ℚ)
    (fuel : Nat) (s : AgentState) :
    runSensorLoop msgs sensor (fuel + 1) s =
      (if (applyUpdate s (fetch_sensor msgs (sensor s.sensor_attempts) s)).stage
           = Stage.retry then
        runSensorLoop msgs sensor fuel
          (applyUpdate s (fetch_sensor msgs (sensor s.sensor_attempts) s))
      else applyUpdate s (fetch_sensor msgs (sensor s.sensor_attempts) s)) := rfl



/-! ## Loop lemmas -/

/-- With enough fuel the sensor loop exits through one of the three
`fetch_sensor` exit branches (never because the fuel ran out), preserves
the bookkeeping fields, never exceeds the retry limit, and records a
moisture value on the valid exit. -/
theorem runSensorLoop_exit (msgs : AgentMsgs) (sensor : Nat → Option ℚ) :
    ∀ (fuel : Nat) (s : AgentState), 1 ≤ fuel →
      s.max_sensor_retries - s.sensor_attempts ≤ fuel →
      ((runSensorLoop msgs sensor fuel s).stage = Stage.timeoutFail ∨
       (runSensorLoop msgs sensor fuel s).stage = Stage.hwFail ∨
       (runSensorLoop msgs sensor fuel s).stage = Stage.sensorOk) ∧
      (runSensorLoop msgs sensor fuel s).field_info = s.field_info ∧
      (runSensorLoop msgs sensor fuel s).field_id = s.field_id ∧
      (runSensorLoop msgs sensor fuel s).max_sensor_retries = s.max_sensor_retries ∧
      (runSensorLoop msgs sensor fuel s).decision = s.decision ∧
      (runSensorLoop msgs sensor fuel s).reason = s.reason ∧
      (s.sensor_attempts < s.max_sensor_retries →
        (runSensorLoop msgs sensor fuel s).sensor_attempts ≤ s.max_sensor_retries) ∧
      ((runSensorLoop msgs sensor fuel s).stage = Stage.sensorOk →
        ∃ v, (runSensorLoop msgs sensor fuel s).moisture_reading = some v) := by
  intro fuel
  induction fuel with
  | zero => intro s h1 _; omega
  | succ fuel ih =>
    intro s _ hb
    rw [runSensorLoop_succ]
    rcases hr : sensor s.sensor_attempts with _ | v
    · by_cases hlt : s.sensor_attempts + 1 < s.max_sensor_retries
      · rw [step_timeout_retry msgs none s rfl hlt, if_pos rfl]
        have hb2 : s.max_sensor_retries - (s.sensor_attempts + 1) ≤ fuel := by omega
        have h12 : (1 : Nat) ≤ fuel := by omega
        have key := ih
          { s with sensor_attempts := s.sensor_attempts + 1,
                   errors := s.errors ++ [msgs.timeoutRetryMsg (s.sensor_attempts + 1)],
                   stage := Stage.retry } h12 hb2
        exact ⟨key.1, key.2.1, key.2.2.1, key.2.2.2.1, key.2.2.2.2.1, key.2.2.2.2.2.1,
               fun _ => key.2.2.2.2.2.2.1 hlt, key.2.2.2.2.2.2.2⟩
      · rw [step_timeout_fail msgs none s rfl hlt, if_neg (by simp)]
        refine ⟨Or.inl rfl, rfl, rfl, rfl, rfl, rfl, ?_, ?_⟩
        · intro h
          show s.sensor_attempts + 1 ≤ s.max_sensor_retries
          omega
        · intro h
          simp at h
    · by_cases hv : v < 0 ∨ 100 < v
      · rw [step_invalid msgs (some v) v s rfl hv, if_neg (by simp)]
        refine ⟨Or.inr (Or.inl rfl), rfl, rfl, rfl, rfl, rfl, ?_, ?_⟩
        · intro h
          show s.sensor_attempts + 1 ≤ s.max_sensor_retries
          omega
        · intro h
          simp at h
      · rw [step_valid msgs (some v) v s rfl hv, if_neg (by simp)]
        refine ⟨Or.inr (Or.inr rfl), rfl, rfl, rfl, rfl, rfl, ?_, ?_⟩
        · intro h
          show s.sensor_attempts + 1 ≤ s.max_sensor_retries
          omega
        · intro _
          exact ⟨v, rfl⟩


/-- The loop result does not depend on the fuel once the fuel strictly
exceeds the remaining retry budget: the loop always exits by its own
condition.  Together with `runSensorLoop_exit` this is the termination
statement for the `SensorFetch` self-loop. -/
theorem runSensorLoop_fuel_stable (msgs : AgentMsgs) (sensor : Nat → Option ℚ) :
    ∀ (f g : Nat) (s : AgentState),
      s.max_sensor_retries - s.sensor_attempts < f →
      s.max_sensor_retries - s.sensor_attempts < g →
      runSensorLoop msgs sensor f s = runSensorLoop msgs sensor g s := by
  intro f
  induction f with
  | zero => intro g s hf _; omega
  | succ f ihf =>
    intro g s hf hg
    cases g with
    | zero => omega
    | succ g =>
      rw [runSensorLoop_succ, runSensorLoop_succ]
      rcases hr : sensor s.sensor_attempts with _ | v
      · by_cases hlt : s.sensor_attempts + 1 < s.max_sensor_retries
        · rw [step_timeout_retry msgs none s rfl hlt, if_pos rfl, if_pos rfl]
          exact ihf g _
            (show s.max_sensor_retries - (s.sensor_attempts + 1) < f by omega)
            (show s.max_sensor_retries - (s.sensor_attempts + 1) < g by omega)
        · rw [step_timeout_fail msgs none s rfl hlt, if_neg (by simp), if_neg (by simp)]
      · by_cases hv : v < 0 ∨ 100 < v
        · rw [step_invalid msgs (some v) v s rfl hv, if_neg (by simp), if_neg (by simp)]
        · rw [step_valid msgs (some v) v s rfl hv, if_neg (by simp), if_neg (by simp)]

/-- The loop result depends on the sensor stream only at the attempt
indices `0, ..., max_sensor_retries - 1` that the loop can actually
read. -/
theorem runSensorLoop_congr_sensor (msgs : AgentMsgs)
    (sensor1 sensor2 : Nat → Option ℚ) :
    ∀ (fuel : Nat) (s : AgentState),
      s.sensor_attempts < s.max_sensor_retries →
      (∀ i, i < s.max_sensor_retries → sensor1 i = sensor2 i) →
      runSensorLoop msgs sensor1 fuel s = runSensorLoop msgs sensor2 fuel s := by
  intro fuel
  induction fuel with
  | zero => intro s _ _; rfl
  | succ fuel ih =>
    intro s ha hagree
    have hr12 : sensor1 s.sensor_attempts = sensor2 s.sensor_attempts :=
      hagree s.sensor_attempts ha
    rw [runSensorLoop_succ, runSensorLoop_succ, hr12]
    rcases hr : sensor2 s.sensor_attempts with _ | v
    · by_cases hlt : s.sensor_attempts + 1 < s.max_sensor_retries
      · rw [step_timeout_retry msgs none s rfl hlt, if_pos rfl, if_pos rfl]
        exact ih _ hlt hagree
      · rw [step_timeout_fail msgs none s rfl hlt, if_neg (by simp), if_neg (by simp)]
    · by_cases hv : v < 0 ∨ 100 < v
      · rw [step_invalid msgs (some v) v s rfl hv, if_neg (by simp), if_neg (by simp)]
      · rw [step_valid msgs (some v) v s rfl hv, if_neg (by simp), if_neg (by simp)]


/-- Closed form of the sensor loop when every read times out: the loop
performs exactly the remaining `max_sensor_retries - sensor_attempts`
attempts, ends in the timeout-failure stage with the attempt counter at
the limit, and appends one error per attempt, the last of which is the
final-timeout message. -/
theorem runSensorLoop_all_none (msgs : AgentMsgs) (sensor : Nat → Option ℚ)
    (hs : ∀ i, sensor i = none) :
    ∀ (fuel : Nat) (s : AgentState),
      s.sensor_attempts < s.max_sensor_retries →
      s.max_sensor_retries - s.sensor_attempts ≤ fuel →
      ∃ L : List String,
        runSensorLoop msgs sensor fuel s =
          { s with sensor_attempts := s.max_sensor_retries,
                   errors := s.errors ++ L,
                   stage := Stage.timeoutFail } ∧
        L.length = s.max_sensor_retries - s.sensor_attempts ∧
        L.getLast? = some (msgs.timeoutFailMsg s.max_sensor_retries) := by
  intro fuel
  induction fuel with
  | zero => intro s ha hb; omega
  | succ fuel ih =>
    intro s ha hb
    rw [runSensorLoop_succ, hs s.sensor_attempts]
    by_cases hlt : s.sensor_attempts + 1 < s.max_sensor_retries
    · rw [step_timeout_retry msgs none s rfl hlt, if_pos rfl]
      obtain ⟨L, hrun, hlen, hlast⟩ := ih
        { s with sensor_attempts := s.sensor_attempts + 1,
                 errors := s.errors ++ [msgs.timeoutRetryMsg (s.sensor_attempts + 1)],
                 stage := Stage.retry }
        hlt (show s.max_sensor_retries - (s.sensor_attempts + 1) ≤ fuel by omega)
      refine ⟨msgs.timeoutRetryMsg (s.sensor_attempts + 1) :: L, ?_, ?_, ?_⟩
      · rw [hrun]
        simp
      · simp only [List.length_cons]
        have : L.length = s.max_sensor_retries - (s.sensor_attempts + 1) := hlen
        omega
      · have hne : L ≠ [] := by
          intro hnil
          rw [hnil] at hlen
          simp at hlen
          omega
        calc (msgs.timeoutRetryMsg (s.sensor_attempts + 1) :: L).getLast?
            = L.getLast? := List.getLast?_append_of_ne_nil [msgs.timeoutRetryMsg (s.sensor_attempts + 1)] hne
          _ = some (msgs.timeoutFailMsg s.max_sensor_retries) := hlast
    · rw [step_timeout_fail msgs none s rfl hlt, if_neg (by simp)]
      have hmax : s.sensor_attempts + 1 = s.max_sensor_retries := by omega
      refine ⟨[msgs.timeoutFailMsg s.max_sensor_retries], ?_, by simp; omega, by simp⟩
      rw [hmax]


theorem retryMsgsFrom_succ (msgs : AgentMsgs) (a k : Nat) :
    retryMsgsFrom msgs a (k + 1) =
      msgs.timeoutRetryMsg (a + 1) :: retryMsgsFrom msgs (a + 1) k := by
  unfold retryMsgsFrom
  rw [List.range_succ_eq_map]
  simp only [List.map_cons, List.map_map]
  congr 1
  congr 1
  funext i
  simp only [Function.comp_apply]
  congr 1
  omega

/-- Closed form of the sensor loop when the first `k` reads time out
(`k` below the remaining budget) and read `k + 1` returns an in-range
value: one retry error per timeout, the whole accumulated list then
re-appended by the valid exit (the `{**state}` / `operator.add`
interaction), stage `sensorOk`, moisture recorded, `k + 1` attempts
consumed. -/
theorem runSensorLoop_leading_timeouts (msgs : AgentMsgs) (sensor : Nat → Option ℚ) :
    ∀ (k fuel : Nat) (s : AgentState) (v : ℚ),
      (∀ i, i < k → sensor (s.sensor_attempts + i) = none) →
      sensor (s.sensor_attempts + k) = some v →
      ¬ (v < 0 ∨ 100 < v) →
      s.sensor_attempts + k < s.max_sensor_retries →
      k < fuel →
      runSensorLoop msgs sensor fuel s =
        { s with moisture_reading := some v,
                 sensor_attempts := s.sensor_attempts + k + 1,
                 errors := (s.errors ++ retryMsgsFrom msgs s.sensor_attempts k)
                           ++ (s.errors ++ retryMsgsFrom msgs s.sensor_attempts k),
                 stage := Stage.sensorOk } := by
  intro k
  induction k with
  | zero =>
    intro fuel s v hnone hv hrange hbound hfuel
    cases fuel with
    | zero => omega
    | succ fuel =>
      rw [runSensorLoop_succ]
      have hr : sensor s.sensor_attempts = some v := by simpa using hv
      rw [hr, step_valid msgs (some v) v s rfl hrange, if_neg (by simp)]
      simp [retryMsgsFrom]
  | succ k ih =>
    intro fuel s v hnone hv hrange hbound hfuel
    cases fuel with
    | zero => omega
    | succ fuel =>
      rw [runSensorLoop_succ]
      have hr : sensor s.sensor_attempts = none := by simpa using hnone 0 (by omega)
      have hlt : s.sensor_attempts + 1 < s.max_sensor_retries := by omega
      rw [hr, step_timeout_retry msgs none s rfl hlt, if_pos rfl]
      have hkey := ih fuel
        { s with sensor_attempts := s.sensor_attempts + 1,
                 errors := s.errors ++ [msgs.timeoutRetryMsg (s.sensor_attempts + 1)],
                 stage := Stage.retry } v
        (fun i hi => by
          show sensor (s.sensor_attempts + 1 + i) = none
          rw [show s.sensor_attempts + 1 + i = s.sensor_attempts + (i + 1) by omega]
          exact hnone (i + 1) (by omega))
        (by
          show sensor (s.sensor_attempts + 1 + k) = some v
          rw [show s.sensor_attempts + 1 + k = s.sensor_attempts + (k + 1) by omega]
          exact hv)
        hrange
        (show s.sensor_attempts + 1 + k < s.max_sensor_retries by omega)
        (by omega)
      rw [hkey]
      rw [retryMsgsFrom_succ msgs s.sensor_attempts k]
      simp [show s.sensor_attempts + 1 + k + 1 = s.sensor_attempts + (k + 1) + 1 by omega]


/-- The sensor loop preserves the simulation relation between a run of
the enhanced message set and a run of the base message set: message
wording never influences the branch taken. -/
theorem equivER_runSensorLoop (msgs1 msgs2 : AgentMsgs) (sensor : Nat → Option ℚ) :
    ∀ (fuel : Nat) (s t : AgentState), EquivER s t →
      EquivER (runSensorLoop msgs1 sensor fuel s) (runSensorLoop msgs2 sensor fuel t) := by
  intro fuel
  induction fuel with
  | zero => intro s t h; exact h
  | succ fuel ih =>
    intro s t h
    obtain ⟨h1, h2, h3, h4, h5, h6, h7, h8⟩ := h
    rw [runSensorLoop_succ, runSensorLoop_succ, h5]
    rcases hr : sensor t.sensor_attempts with _ | v
    · by_cases hlt : t.sensor_attempts + 1 < t.max_sensor_retries
      · have hlts : s.sensor_attempts + 1 < s.max_sensor_retries := by
          rw [h5, h6]; exact hlt
        rw [step_timeout_retry msgs1 none s rfl hlts,
            step_timeout_retry msgs2 none t rfl hlt, if_pos rfl, if_pos rfl]
        exact ih _ _ ⟨h1, h2, h3, h4, by simp [h5], by simp [h6], rfl, by simp [h8]⟩
      · have hlts : ¬ s.sensor_attempts + 1 < s.max_sensor_retries := by
          rw [h5, h6]; exact hlt
        rw [step_timeout_fail msgs1 none s rfl hlts,
            step_timeout_fail msgs2 none t rfl hlt, if_neg (by simp), if_neg (by simp)]
        exact ⟨h1, h2, h3, h4, by simp [h5], by simp [h6], rfl, by simp [h8]⟩
    · by_cases hv : v < 0 ∨ 100 < v
      · rw [step_invalid msgs1 (some v) v s rfl hv,
            step_invalid msgs2 (some v) v t rfl hv, if_neg (by simp), if_neg (by simp)]
        exact ⟨h1, h2, rfl, h4, by simp [h5], by simp [h6], rfl, by simp [h8]⟩
      · rw [step_valid msgs1 (some v) v s rfl hv,
            step_valid msgs2 (some v) v t rfl hv, if_neg (by simp), if_neg (by simp)]
        exact ⟨h1, h2, rfl, h4, by simp [h5], by simp [h6], rfl, by simp [h8]⟩


/-! ## Node and graph decomposition lemmas -/

theorem maintenance_applyUpdate (msgs : AgentMsgs) (s : AgentState) :
    applyUpdate s (maintenance msgs s) =
      { s with decision := some IrrigationDecision.MAINTENANCE_REQUIRED,
               reason := msgs.maintReason (String.intercalate "; " s.errors),
               stage := Stage.done,
               errors := s.errors ++ s.errors } := by
  simp [applyUpdate, maintenance]

theorem validate_fields (msgs : AgentMsgs) (s : AgentState) (f : FieldInfo) (v : ℚ)
    (hf : s.field_info = some f) (hm : s.moisture_reading = some v) :
    (applyUpdate s (validate msgs s)).decision = some (thresholdDecision f v) ∧
    (applyUpdate s (validate msgs s)).moisture_reading = s.moisture_reading ∧
    (applyUpdate s (validate msgs s)).field_info = s.field_info ∧
    (applyUpdate s (validate msgs s)).sensor_attempts = s.sensor_attempts ∧
    (applyUpdate s (validate msgs s)).field_id = s.field_id ∧
    (applyUpdate s (validate msgs s)).errors = s.errors ++ s.errors ∧
    (applyUpdate s (validate msgs s)).max_sensor_retries = s.max_sensor_retries ∧
    (applyUpdate s (validate msgs s)).stage = Stage.done := by
  by_cases h1 : v < f.min_moisture
  · simp [applyUpdate, validate, thresholdDecision, hf, hm, h1]
  · by_cases h2 : f.max_moisture < v
    · simp [applyUpdate, validate, thresholdDecision, hf, hm, h1, h2]
    · by_cases h3 : v < f.optimal_moisture
      · simp [applyUpdate, validate, thresholdDecision, hf, hm, h1, h2, h3]
      · simp [applyUpdate, validate, thresholdDecision, hf, hm, h1, h2, h3]

theorem runGraph_not_found (msgs : AgentMsgs) (cat : Int → Option FieldInfo)
    (sensor : Nat → Option ℚ) (fuel : Nat) (fid : Int) (limit : Nat)
    (h : cat fid = none) :
    runGraph msgs cat sensor fuel (initState fid limit) =
      { field_id := fid
        field_info := none
        moisture_reading := none
        decision := some IrrigationDecision.MAINTENANCE_REQUIRED
        reason := msgs.maintReason (String.intercalate "; " [msgs.notFoundMsg fid])
        errors := [msgs.notFoundMsg fid, msgs.notFoundMsg fid]
        sensor_attempts := 0
        max_sensor_retries := limit
        stage := Stage.done } := by
  unfold runGraph retrieve_field
  simp only [initState, h]
  simp [applyUpdate, maintenance]

theorem runGraph_found (msgs : AgentMsgs) (cat : Int → Option FieldInfo)
    (sensor : Nat → Option ℚ) (fuel : Nat) (fid : Int) (limit : Nat)
    (f : FieldInfo) (h : cat fid = some f) :
    runGraph msgs cat sensor fuel (initState fid limit) =
      routeAfterLoop msgs (runSensorLoop msgs sensor fuel (postFieldState fid limit f)) := by
  unfold runGraph retrieve_field
  simp only [initState, h]
  simp [applyUpdate, postFieldState]


/-! ## Substring facts -/

theorem startsWithL_self_append : ∀ (p z : List Char), startsWithL p (p ++ z) = true := by
  intro p
  induction p with
  | nil => intro z; rfl
  | cons c cs ih => intro z; simp [startsWithL, ih z]

theorem hasSubL_of_startsWithL (p l : List Char) (h : startsWithL p l = true) :
    hasSubL p l = true := by
  cases l with
  | nil => simpa [hasSubL] using h
  | cons b bs => simp [hasSubL, h]

theorem hasSubL_append_left (p : List Char) :
    ∀ (x y : List Char), hasSubL p y = true → hasSubL p (x ++ y) = true := by
  intro x
  induction x with
  | nil => intro y h; simpa using h
  | cons c cs ih =>
    intro y h
    simp only [List.cons_append, hasSubL, Bool.or_eq_true]
    exact Or.inr (ih y h)

/-- A pattern occurring in the suffix occurs in the concatenation. -/
theorem strContains_append_right (a b pat : String) (h : strContains b pat = true) :
    strContains (a ++ b) pat = true := by
  unfold strContains at h ⊢
  show hasSubL pat.data (a.data ++ b.data) = true
  exact hasSubL_append_left _ _ _ h

/-- A string built around a pattern contains that pattern. -/
theorem strContains_middle (a pat z : String) :
    strContains (a ++ pat ++ z) pat = true := by
  unfold strContains
  show hasSubL pat.data ((a.data ++ pat.data) ++ z.data) = true
  rw [List.append_assoc]
  exact hasSubL_append_left _ _ _
    (hasSubL_of_startsWithL _ _ (startsWithL_self_append _ _))


/-! ## Report-level lemmas -/

theorem decideWith_eq (msgs : AgentMsgs)
    (conf : Option IrrigationDecision → Option ℚ → Option FieldInfo → String)
    (cat : Int → Option FieldInfo) (sensor : Nat → Option ℚ)
    (fid : Int) (limit : Nat) :
    decideWith msgs conf cat sensor fid limit =
      { field_id := fid
        decision := (runGraph msgs cat sensor (limit + 1) (initState fid limit)).decision
        current_moisture :=
          (runGraph msgs cat sensor (limit + 1) (initState fid limit)).moisture_reading
        optimal_range :=
          (runGraph msgs cat sensor (limit + 1) (initState fid limit)).field_info.map
            (fun f => (f.min_moisture, f.max_moisture))
        reason := (runGraph msgs cat sensor (limit + 1) (initState fid limit)).reason
        confidence :=
          conf (runGraph msgs cat sensor (limit + 1) (initState fid limit)).decision
            (runGraph msgs cat sensor (limit + 1) (initState fid limit)).moisture_reading
            (runGraph msgs cat sensor (limit + 1) (initState fid limit)).field_info
        sensor_attempts :=
          (runGraph msgs cat sensor (limit + 1) (initState fid limit)).sensor_attempts
        errors := (runGraph msgs cat sensor (limit + 1) (initState fid limit)).errors } := rfl

theorem thresholdDecision_ne_maint (f : FieldInfo) (v : ℚ) :
    thresholdDecision f v ≠ IrrigationDecision.MAINTENANCE_REQUIRED := by
  unfold thresholdDecision
  split_ifs <;> simp

/-- Totality of one `Decide` run, for an arbitrary message set and
confidence policy: the final report always carries a decision, the
attempt counter never exceeds the retry limit, and the internal fuel is
unobservable (the loop always exits by its own condition). -/
theorem decideWith_total (msgs : AgentMsgs)
    (conf : Option IrrigationDecision → Option ℚ → Option FieldInfo → String)
    (cat : Int → Option FieldInfo) (sensor : Nat → Option ℚ)
    (fid : Int) (limit : Nat) (hlim : 0 < limit) :
    (decideWith msgs conf cat sensor fid limit).decision.isSome ∧
    (decideWith msgs conf cat sensor fid limit).sensor_attempts ≤ limit ∧
    (∀ fuel, limit + 1 ≤ fuel →
      runGraph msgs cat sensor fuel (initState fid limit) =
      runGraph msgs cat sensor (limit + 1) (initState fid limit)) := by
  rcases hcat : cat fid with _ | f
  · rw [decideWith_eq, runGraph_not_found msgs cat sensor (limit + 1) fid limit hcat]
    refine ⟨rfl, by simp, ?_⟩
    intro fuel _
    rw [runGraph_not_found msgs cat sensor fuel fid limit hcat]
  · have hstab : ∀ fuel, limit + 1 ≤ fuel →
        runGraph msgs cat sensor fuel (initState fid limit) =
        runGraph msgs cat sensor (limit + 1) (initState fid limit) := by
      intro fuel hfuel
      rw [runGraph_found msgs cat sensor fuel fid limit f hcat,
          runGraph_found msgs cat sensor (limit + 1) fid limit f hcat]
      congr 1
      exact runSensorLoop_fuel_stable msgs sensor fuel (limit + 1)
        (postFieldState fid limit f)
        (show limit - 0 < fuel by omega) (show limit - 0 < limit + 1 by omega)
    refine ⟨?_, ?_, hstab⟩ <;>
    · rw [decideWith_eq, runGraph_found msgs cat sensor (limit + 1) fid limit f hcat]
      have hexit := runSensorLoop_exit msgs sensor (limit + 1) (postFieldState fid limit f)
        (by omega) (show limit - 0 ≤ limit + 1 by omega)
      obtain ⟨hst, hfi, hfid2, hmax, hdec, hreas, hatt, hmoist⟩ := hexit
      have hatt2 : (runSensorLoop msgs sensor (limit + 1)
          (postFieldState fid limit f)).sensor_attempts ≤ limit :=
        hatt (show (postFieldState fid limit f).sensor_attempts <
          (postFieldState fid limit f).max_sensor_retries by simp [postFieldState]; omega)
      unfold routeAfterLoop
      rcases hst with h | h | h
      · rw [if_neg (by rw [h]; simp), if_pos (Or.inl h), maintenance_applyUpdate]
        simp [hatt2]
      · rw [if_neg (by rw [h]; simp), if_pos (Or.inr h), maintenance_applyUpdate]
        simp [hatt2]
      · obtain ⟨v, hv⟩ := hmoist h
        have hfi2 : (runSensorLoop msgs sensor (limit + 1)
            (postFieldState fid limit f)).field_info = some f := hfi.trans rfl
        rw [if_neg (by rw [h]; simp), if_neg (by rw [h]; simp)]
        have hval := validate_fields msgs _ f v hfi2 hv
        simp [hval.1, hval.2.2.2.1, hatt2]


theorem validate_applyUpdate_stuck (msgs : AgentMsgs) (s : AgentState)
    (h : s.field_info = none ∨ s.moisture_reading = none) :
    applyUpdate s (validate msgs s) = { s with errors := s.errors ++ s.errors } := by
  rcases h with h | h
  · simp [applyUpdate, validate, h]
  · rcases hf : s.field_info with _ | f
    · simp [applyUpdate, validate, hf]
    · simp [applyUpdate, validate, hf, h]

theorem equivER_routeAfterLoop (msgs1 msgs2 : AgentMsgs) (s t : AgentState)
    (h : EquivER s t) :
    EquivER (routeAfterLoop msgs1 s) (routeAfterLoop msgs2 t) := by
  obtain ⟨h1, h2, h3, h4, h5, h6, h7, h8⟩ := h
  unfold routeAfterLoop
  rw [← h7]
  by_cases hr : s.stage = Stage.retry
  · rw [if_pos hr, if_pos hr]
    exact ⟨h1, h2, h3, h4, h5, h6, h7, h8⟩
  · rw [if_neg hr, if_neg hr]
    by_cases hfail : s.stage = Stage.timeoutFail ∨ s.stage = Stage.hwFail
    · rw [if_pos hfail, if_pos hfail, maintenance_applyUpdate, maintenance_applyUpdate]
      exact ⟨h1, h2, h3, rfl, h5, h6, rfl, by simp [h8]⟩
    · rw [if_neg hfail, if_neg hfail]
      rcases hf : s.field_info with _ | f
      · rw [validate_applyUpdate_stuck msgs1 s (Or.inl hf),
            validate_applyUpdate_stuck msgs2 t (Or.inl (h2 ▸ hf))]
        exact ⟨h1, h2, h3, h4, h5, h6, h7, by simp [h8]⟩
      · rcases hm : s.moisture_reading with _ | v
        · rw [validate_applyUpdate_stuck msgs1 s (Or.inr hm),
              validate_applyUpdate_stuck msgs2 t (Or.inr (h3 ▸ hm))]
          exact ⟨h1, h2, h3, h4, h5, h6, h7, by simp [h8]⟩
        · have hs := validate_fields msgs1 s f v hf hm
          have ht := validate_fields msgs2 t f v (h2 ▸ hf) (h3 ▸ hm)
          refine ⟨?_, ?_, ?_, ?_, ?_, ?_, ?_, ?_⟩
          · rw [hs.2.2.2.2.1, ht.2.2.2.2.1, h1]
          · rw [hs.2.2.1, ht.2.2.1, h2]
          · rw [hs.2.1, ht.2.1, h3]
          · rw [hs.1, ht.1]
          · rw [hs.2.2.2.1, ht.2.2.2.1, h5]
          · rw [hs.2.2.2.2.2.2.1, ht.2.2.2.2.2.2.1, h6]
          · rw [hs.2.2.2.2.2.2.2, ht.2.2.2.2.2.2.2]
          · rw [hs.2.2.2.2.2.1, ht.2.2.2.2.2.1]
            simp [h8]

theorem equivER_runGraph (msgs1 msgs2 : AgentMsgs) (cat : Int → Option FieldInfo)
    (sensor : Nat → Option ℚ) (fuel : Nat) (fid : Int) (limit : Nat) :
    EquivER (runGraph msgs1 cat sensor fuel (initState fid limit))
            (runGraph msgs2 cat sensor fuel (initState fid limit)) := by
  rcases hcat : cat fid with _ | f
  · rw [runGraph_not_found msgs1 cat sensor fuel fid limit hcat,
        runGraph_not_found msgs2 cat sensor fuel fid limit hcat]
    exact ⟨rfl, rfl, rfl, rfl, rfl, rfl, rfl, rfl⟩
  · rw [runGraph_found msgs1 cat sensor fuel fid limit f hcat,
        runGraph_found msgs2 cat sensor fuel fid limit f hcat]
    exact equivER_routeAfterLoop msgs1 msgs2 _ _
      (equivER_runSensorLoop msgs1 msgs2 sensor fuel _ _
        ⟨rfl, rfl, rfl, rfl, rfl, rfl, rfl, rfl⟩)


theorem runGraph_congr (msgs : AgentMsgs) (cat1 cat2 : Int → Option FieldInfo)
    (sensor1 sensor2 : Nat → Option ℚ) (fuel : Nat) (fid : Int) (limit : Nat)
    (hlim : 0 < limit) (hcat : cat1 fid = cat2 fid)
    (hsen : ∀ i, i < limit → sensor1 i = sensor2 i) :
    runGraph msgs cat1 sensor1 fuel (initState fid limit) =
    runGraph msgs cat2 sensor2 fuel (initState fid limit) := by
  rcases hcat1 : cat1 fid with _ | f
  · have hcat2 : cat2 fid = none := hcat ▸ hcat1
    rw [runGraph_not_found msgs cat1 sensor1 fuel fid limit hcat1,
        runGraph_not_found msgs cat2 sensor2 fuel fid limit hcat2]
  · have hcat2 : cat2 fid = some f := hcat ▸ hcat1
    rw [runGraph_found msgs cat1 sensor1 fuel fid limit f hcat1,
        runGraph_found msgs cat2 sensor2 fuel fid limit f hcat2]
    congr 1
    exact runSensorLoop_congr_sensor msgs sensor1 sensor2 fuel
      (postFieldState fid limit f) (show 0 < limit from hlim) (fun i hi => hsen i hi)

theorem decideWith_all_timeouts (msgs : AgentMsgs)
    (conf : Option IrrigationDecision → Option ℚ → Option FieldInfo → String)
    (cat : Int → Option FieldInfo) (fid : Int) (limit : Nat) (f : FieldInfo)
    (hlim : 0 < limit) (hcat : cat fid = some f) :
    (decideWith msgs conf cat (fun _ => none) fid limit).sensor_attempts = limit ∧
    (decideWith msgs conf cat (fun _ => none) fid limit).decision =
      some IrrigationDecision.MAINTENANCE_REQUIRED ∧
    limit ≤ (decideWith msgs conf cat (fun _ => none) fid limit).errors.length ∧
    (decideWith msgs conf cat (fun _ => none) fid limit).errors.getLast? =
      some (msgs.timeoutFailMsg limit) := by
  rw [decideWith_eq, runGraph_found msgs cat (fun _ => none) (limit + 1) fid limit f hcat]
  obtain ⟨L, hrun, hlen, hlast⟩ :=
    runSensorLoop_all_none msgs (fun _ => none) (fun _ => rfl) (limit + 1)
      (postFieldState fid limit f) (show 0 < limit from hlim)
      (show limit - 0 ≤ limit + 1 by omega)
  rw [hrun]
  unfold routeAfterLoop
  rw [if_neg (by simp), if_pos (Or.inl (by simp)), maintenance_applyUpdate]
  have hlen2 : L.length = limit := by simpa [postFieldState] using hlen
  have hne : L ≠ [] := by
    intro hnil
    rw [hnil] at hlen2
    simp at hlen2
    omega
  refine ⟨by simp [postFieldState], rfl, ?_, ?_⟩
  · simp [postFieldState, hlen2]
  · have : ((postFieldState fid limit f).errors ++ L ++
        ((postFieldState fid limit f).errors ++ L)).getLast? = L.getLast? := by
      simp only [postFieldState, List.nil_append]
      exact List.getLast?_append_of_ne_nil L hne
    rw [this, hlast]
    simp [postFieldState]

theorem decideWith_first_invalid (msgs : AgentMsgs)
    (conf : Option IrrigationDecision → Option ℚ → Option FieldInfo → String)
    (cat : Int → Option FieldInfo) (sensor : Nat → Option ℚ)
    (fid : Int) (limit : Nat) (f : FieldInfo) (v : ℚ)
    (hcat : cat fid = some f) (hs0 : sensor 0 = some v) (hv : v < 0 ∨ 100 < v) :
    (decideWith msgs conf cat sensor fid limit).sensor_attempts = 1 ∧
    (decideWith msgs conf cat sensor fid limit).decision =
      some IrrigationDecision.MAINTENANCE_REQUIRED ∧
    (decideWith msgs conf cat sensor fid limit).current_moisture = some v ∧
    msgs.invalidMsg v ∈ (decideWith msgs conf cat sensor fid limit).errors := by
  have hloop : runSensorLoop msgs sensor (limit + 1) (postFieldState fid limit f) =
      { field_id := fid, field_info := some f, moisture_reading := some v,
        decision := none, reason := "", errors := [msgs.invalidMsg v],
        sensor_attempts := 1, max_sensor_retries := limit, stage := Stage.hwFail } := by
    rw [runSensorLoop_succ]
    have hs0a : sensor (postFieldState fid limit f).sensor_attempts = some v := hs0
    rw [step_invalid msgs _ v _ hs0a hv, if_neg (by simp)]
    simp [postFieldState]
  rw [decideWith_eq, runGraph_found msgs cat sensor (limit + 1) fid limit f hcat, hloop]
  unfold routeAfterLoop
  rw [if_neg (by simp), if_pos (Or.inr rfl), maintenance_applyUpdate]
  exact ⟨rfl, rfl, rfl, by simp⟩

theorem decideWith_first_valid (msgs : AgentMsgs)
    (conf : Option IrrigationDecision → Option ℚ → Option FieldInfo → String)
    (cat : Int → Option FieldInfo) (sensor : Nat → Option ℚ)
    (fid : Int) (limit : Nat) (f : FieldInfo) (v : ℚ)
    (hcat : cat fid = some f) (hs0 : sensor 0 = some v) (hv : ¬ (v < 0 ∨ 100 < v)) :
    (decideWith msgs conf cat sensor fid limit).sensor_attempts = 1 ∧
    (decideWith msgs conf cat sensor fid limit).decision =
      some (thresholdDecision f v) ∧
    (decideWith msgs conf cat sensor fid limit).current_moisture = some v := by
  have hloop : runSensorLoop msgs sensor (limit + 1) (postFieldState fid limit f) =
      { field_id := fid, field_info := some f, moisture_reading := some v,
        decision := none, reason := "", errors := [],
        sensor_attempts := 1, max_sensor_retries := limit, stage := Stage.sensorOk } := by
    rw [runSensorLoop_succ]
    have hs0a : sensor (postFieldState fid limit f).sensor_attempts = some v := hs0
    rw [step_valid msgs _ v _ hs0a hv, if_neg (by simp)]
    simp [postFieldState]
  rw [decideWith_eq, runGraph_found msgs cat sensor (limit + 1) fid limit f hcat, hloop]
  unfold routeAfterLoop
  rw [if_neg (by simp), if_neg (by simp)]
  have hval := validate_fields msgs
    { field_id := fid, field_info := some f, moisture_reading := some v,
      decision := none, reason := "", errors := [],
      sensor_attempts := 1, max_sensor_retries := limit, stage := Stage.sensorOk }
    f v rfl rfl
  exact ⟨hval.2.2.2.1, hval.1, hval.2.1⟩

theorem decideWith_leading_timeouts (msgs : AgentMsgs)
    (conf : Option IrrigationDecision → Option ℚ → Option FieldInfo → String)
    (cat : Int → Option FieldInfo) (sensor : Nat → Option ℚ)
    (fid : Int) (limit : Nat) (f : FieldInfo) (v : ℚ) (k : Nat)
    (hcat : cat fid = some f)
    (hnone : ∀ i, i < k → sensor i = none)
    (hk : sensor k = some v)
    (hrange : ¬ (v < 0 ∨ 100 < v))
    (hbound : k < limit) :
    (decideWith msgs conf cat sensor fid limit).decision =
      some (thresholdDecision f v) ∧
    (decideWith msgs conf cat sensor fid limit).sensor_attempts = k + 1 ∧
    (decideWith msgs conf cat sensor fid limit).current_moisture = some v ∧
    (decideWith msgs conf cat sensor fid limit).errors =
      retryMsgsFrom msgs 0 k ++ retryMsgsFrom msgs 0 k ++
      retryMsgsFrom msgs 0 k ++ retryMsgsFrom msgs 0 k := by
  have hloop := runSensorLoop_leading_timeouts msgs sensor k (limit + 1)
    (postFieldState fid limit f) v
    (fun i hi => by
      rw [show (postFieldState fid limit f).sensor_attempts + i = i by
        simp [postFieldState]]
      exact hnone i hi)
    (by
      rw [show (postFieldState fid limit f).sensor_attempts + k = k by
        simp [postFieldState]]
      exact hk)
    hrange
    (by simp only [postFieldState]; omega)
    (by omega)
  simp only [postFieldState, List.nil_append, Nat.zero_add] at hloop
  rw [decideWith_eq, runGraph_found msgs cat sensor (limit + 1) fid limit f hcat]
  simp only [postFieldState]
  rw [hloop]
  unfold routeAfterLoop
  rw [if_neg (by simp), if_neg (by simp)]
  have hval := validate_fields msgs
    { field_id := fid, field_info := some f, moisture_reading := some v,
      decision := none, reason := "",
      errors := retryMsgsFrom msgs 0 k ++ retryMsgsFrom msgs 0 k,
      sensor_attempts := k + 1, max_sensor_retries := limit,
      stage := Stage.sensorOk } f v rfl rfl
  refine ⟨hval.1, hval.2.2.2.1, hval.2.1, ?_⟩
  rw [hval.2.2.2.2.2.1]
  simp [List.append_assoc]


theorem decideE_confidence_maint (cat : Int → Option FieldInfo)
    (sensor : Nat → Option ℚ) (fid : Int) (limit : Nat)
    (h : (decideE cat sensor fid limit).decision =
      some IrrigationDecision.MAINTENANCE_REQUIRED) :
    (decideE cat sensor fid limit).confidence = "N/A" := by
  show calculate_confidence
    (runGraph msgsE cat sensor (limit + 1) (initState fid limit)).decision
    (runGraph msgsE cat sensor (limit + 1) (initState fid limit)).moisture_reading
    (runGraph msgsE cat sensor (limit + 1) (initState fid limit)).field_info = "N/A"
  have h2 : (runGraph msgsE cat sensor (limit + 1) (initState fid limit)).decision =
      some IrrigationDecision.MAINTENANCE_REQUIRED := h
  rw [h2]
  simp [calculate_confidence]

theorem decideB_confidence_maint (cat : Int → Option FieldInfo)
    (sensor : Nat → Option ℚ) (fid : Int) (limit : Nat)
    (h : (decideB cat sensor fid limit).decision =
      some IrrigationDecision.MAINTENANCE_REQUIRED) :
    (decideB cat sensor fid limit).confidence = "N/A" := by
  show confidenceB
    (runGraph msgsB cat sensor (limit + 1) (initState fid limit)).decision
    (runGraph msgsB cat sensor (limit + 1) (initState fid limit)).moisture_reading
    (runGraph msgsB cat sensor (limit + 1) (initState fid limit)).field_info = "N/A"
  have h2 : (runGraph msgsB cat sensor (limit + 1) (initState fid limit)).decision =
      some IrrigationDecision.MAINTENANCE_REQUIRED := h
  rw [confidenceB, h2]
  simp

/-! ## Claim theorems -/

/-- Claim C1: For every field identifier, catalog behaviour, sequence of
sensor responses (valid, no-response, out-of-range) and retryLimit > 0,
both `decide` operations terminate with exactly one report whose
decision field is set (equivalently: no uncaught error reaches the
caller — the only crashing path, `validate` on missing data, is
unreachable), the sensor is consulted at most retryLimit times, and the
SensorFetch self-loop always reaches a terminal state by its own exit
condition: any loop fuel of at least retryLimit + 1 yields the same
final graph state. -/
theorem C1_decide_always_reports (cat : Int → Option FieldInfo)
    (sensor : Nat → Option ℚ) (fid : Int) (limit : Nat) (hlim : 0 < limit) :
    ((decideE cat sensor fid limit).decision.isSome ∧
     (decideE cat sensor fid limit).sensor_attempts ≤ limit) ∧
    ((decideB cat sensor fid limit).decision.isSome ∧
     (decideB cat sensor fid limit).sensor_attempts ≤ limit) ∧
    (∀ fuel, limit + 1 ≤ fuel →
      runGraph msgsE cat sensor fuel (initState fid limit) =
      runGraph msgsE cat sensor (limit + 1) (initState fid limit)) ∧
    (∀ fuel, limit + 1 ≤ fuel →
      runGraph msgsB cat sensor fuel (initState fid limit) =
      runGraph msgsB cat sensor (limit + 1) (initState fid limit)) := by
  obtain ⟨e1, e2, e3⟩ :=
    decideWith_total msgsE calculate_confidence cat sensor fid limit hlim
  obtain ⟨b1, b2, b3⟩ :=
    decideWith_total msgsB confidenceB cat sensor fid limit hlim
  exact ⟨⟨e1, e2⟩, ⟨b1, b2⟩, e3, b3⟩

theorem C1_witness :
    0 < 3 ∧
    (decideE mockCatalog (fun _ => none) 12 3).decision.isSome ∧
    (decideB mockCatalog (fun _ => none) 12 3).sensor_attempts ≤ 3 :=
  ⟨by decide,
   (C1_decide_always_reports mockCatalog (fun _ => none) 12 3 (by decide)).1.1,
   (C1_decide_always_reports mockCatalog (fun _ => none) 12 3 (by decide)).2.1.2⟩

/-- Claim C2: For a field record with minMoisture ≤ optimalMoisture ≤
maxMoisture and a valid reading 0 ≤ v ≤ 100, the `validate` node decides
by the threshold rules in source order, first match winning
(`thresholdDecision`); in particular v < minMoisture always yields
IRRIGATE, and v exactly equal to optimalMoisture yields
DO_NOT_IRRIGATE.  Stated for an arbitrary message set, hence for both
implementation files at once. -/
theorem C2_validate_priority (msgs : AgentMsgs) (s : AgentState)
    (f : FieldInfo) (v : ℚ)
    (hf : s.field_info = some f) (hm : s.moisture_reading = some v)
    (h1 : f.min_moisture ≤ f.optimal_moisture)
    (h2 : f.optimal_moisture ≤ f.max_moisture)
    (_h3 : 0 ≤ v) (_h4 : v ≤ 100) :
    (applyUpdate s (validate msgs s)).decision = some (thresholdDecision f v) ∧
    (v < f.min_moisture →
      (applyUpdate s (validate msgs s)).decision =
        some IrrigationDecision.IRRIGATE) ∧
    (v = f.optimal_moisture →
      (applyUpdate s (validate msgs s)).decision =
        some IrrigationDecision.DO_NOT_IRRIGATE) := by
  have hd := (validate_fields msgs s f v hf hm).1
  refine ⟨hd, ?_, ?_⟩
  · intro hlt
    rw [hd]
    unfold thresholdDecision
    rw [if_pos hlt]
  · intro heq
    rw [hd]
    unfold thresholdDecision
    rw [if_neg (by rw [heq]; exact not_lt.mpr h1),
        if_neg (by rw [heq]; exact not_lt.mpr h2),
        if_neg (by rw [heq]; exact lt_irrefl _)]

theorem C2_witness :
    ((0:ℚ) ≤ mkRat 95 2 ∧ mkRat 95 2 ≤ 100) ∧
    (applyUpdate
      ⟨12, some ⟨12, CropType.TOMATO, 35, 60, mkRat 95 2, "sandy-loam"⟩, some (mkRat 95 2),
        none, "", [], 1, 3, Stage.sensorOk⟩
      (validate msgsE
        ⟨12, some ⟨12, CropType.TOMATO, 35, 60, mkRat 95 2, "sandy-loam"⟩, some (mkRat 95 2),
          none, "", [], 1, 3, Stage.sensorOk⟩)).decision =
      some IrrigationDecision.DO_NOT_IRRIGATE :=
  ⟨⟨by decide, by decide⟩,
   (C2_validate_priority msgsE _ _ (mkRat 95 2) rfl rfl (by decide) (by decide)
      (by decide) (by decide)).2.2 rfl⟩

/-- Claim C3: When the field lookup succeeds and every sensor read is a
`NoResponse`, both `decide` operations report exactly retryLimit sensor
attempts, decision MAINTENANCE_REQUIRED, at least retryLimit recorded
errors, the last of which is the final-timeout message
"Sensor timeout after <retryLimit> attempts". -/
theorem C3_all_timeouts_maintenance (cat : Int → Option FieldInfo) (fid : Int)
    (limit : Nat) (f : FieldInfo) (hlim : 0 < limit) (hcat : cat fid = some f) :
    ((decideE cat (fun _ => none) fid limit).sensor_attempts = limit ∧
     (decideE cat (fun _ => none) fid limit).decision =
       some IrrigationDecision.MAINTENANCE_REQUIRED ∧
     limit ≤ (decideE cat (fun _ => none) fid limit).errors.length ∧
     (decideE cat (fun _ => none) fid limit).errors.getLast? =
       some ("Sensor timeout after " ++ toString limit ++ " attempts")) ∧
    ((decideB cat (fun _ => none) fid limit).sensor_attempts = limit ∧
     (decideB cat (fun _ => none) fid limit).decision =
       some IrrigationDecision.MAINTENANCE_REQUIRED ∧
     limit ≤ (decideB cat (fun _ => none) fid limit).errors.length ∧
     (decideB cat (fun _ => none) fid limit).errors.getLast? =
       some ("Sensor timeout after " ++ toString limit ++ " attempts")) := by
  obtain ⟨e1, e2, e3, e4⟩ :=
    decideWith_all_timeouts msgsE calculate_confidence cat fid limit f hlim hcat
  obtain ⟨b1, b2, b3, b4⟩ :=
    decideWith_all_timeouts msgsB confidenceB cat fid limit f hlim hcat
  exact ⟨⟨e1, e2, e3, e4⟩, ⟨b1, b2, b3, b4⟩⟩

theorem C3_witness :
    0 < 3 ∧
    mockCatalog 12 = some ⟨12, CropType.TOMATO, 35, 60, mkRat 95 2, "sandy-loam"⟩ ∧
    (decideE mockCatalog (fun _ => none) 12 3).sensor_attempts = 3 ∧
    (decideB mockCatalog (fun _ => none) 12 3).errors.getLast? =
      some ("Sensor timeout after " ++ toString 3 ++ " attempts") :=
  ⟨by decide, by decide,
   (C3_all_timeouts_maintenance mockCatalog 12 3
      ⟨12, CropType.TOMATO, 35, 60, mkRat 95 2, "sandy-loam"⟩
      (by decide) (by decide)).1.1,
   (C3_all_timeouts_maintenance mockCatalog 12 3
      ⟨12, CropType.TOMATO, 35, 60, mkRat 95 2, "sandy-loam"⟩
      (by decide) (by decide)).2.2.2.2⟩


/-- Function `qsub` agrees with subtraction on `ℚ`. -/
theorem qsub_eq (a b : ℚ) : qsub a b = a - b := by
  unfold qsub
  rw [Rat.mkRat_eq_div]
  have ha : (a.den : ℚ) ≠ 0 := by
    exact_mod_cast a.den_nz
  have hb : (b.den : ℚ) ≠ 0 := by
    exact_mod_cast b.den_nz
  rw [show a - b = (a.num : ℚ) / (a.den : ℚ) - (b.num : ℚ) / (b.den : ℚ) by
    rw [Rat.num_div_den, Rat.num_div_den]]
  rw [div_sub_div _ _ ha hb]
  push_cast
  ring_nf

/-- Function `qabs` agrees with the absolute value on `ℚ`. -/
theorem qabs_eq (q : ℚ) : qabs q = |q| := by
  unfold qabs
  rw [Rat.mkRat_eq_div]
  rw [show |q| = |(q.num : ℚ) / (q.den : ℚ)| by rw [Rat.num_div_den]]
  rw [abs_div]
  congr 1
  · push_cast
    rfl
  · rw [abs_of_nonneg (by positivity)]


/-- Claim C4: With the field found, a first sensor response outside
[0, 100] — any sign or magnitude — routes straight to Maintenance with
no retry: one attempt, decision MAINTENANCE_REQUIRED, the out-of-range
value stored as the current moisture, and an error message carrying the
value; conversely a first response of exactly 0 or exactly 100 is
treated as a valid reading and decided by the threshold rules (never
maintenance).  Both implementations. -/
theorem C4_out_of_range (cat : Int → Option FieldInfo) (fid : Int)
    (limit : Nat) (f : FieldInfo) (hcat : cat fid = some f) :
    (∀ (sensor : Nat → Option ℚ) (v : ℚ), sensor 0 = some v →
      (v < 0 ∨ 100 < v) →
      ((decideE cat sensor fid limit).sensor_attempts = 1 ∧
       (decideE cat sensor fid limit).decision =
         some IrrigationDecision.MAINTENANCE_REQUIRED ∧
       (decideE cat sensor fid limit).current_moisture = some v ∧
       ("Invalid sensor value " ++ pyFloatRepr v ++ "%") ∈
         (decideE cat sensor fid limit).errors ∧
       strContains ("Invalid sensor value " ++ pyFloatRepr v ++ "%")
         (pyFloatRepr v) = true) ∧
      ((decideB cat sensor fid limit).sensor_attempts = 1 ∧
       (decideB cat sensor fid limit).decision =
         some IrrigationDecision.MAINTENANCE_REQUIRED ∧
       (decideB cat sensor fid limit).current_moisture = some v ∧
       ("Sensor hardware error: impossible value " ++ pyFloatRepr v ++ "%") ∈
         (decideB cat sensor fid limit).errors ∧
       strContains ("Sensor hardware error: impossible value " ++ pyFloatRepr v ++ "%")
         (pyFloatRepr v) = true)) ∧
    (∀ (sensor : Nat → Option ℚ) (v : ℚ), sensor 0 = some v →
      (v = 0 ∨ v = 100) →
      ((decideE cat sensor fid limit).sensor_attempts = 1 ∧
       (decideE cat sensor fid limit).decision = some (thresholdDecision f v) ∧
       (decideE cat sensor fid limit).decision ≠
         some IrrigationDecision.MAINTENANCE_REQUIRED ∧
       (decideE cat sensor fid limit).current_moisture = some v) ∧
      ((decideB cat sensor fid limit).sensor_attempts = 1 ∧
       (decideB cat sensor fid limit).decision = some (thresholdDecision f v) ∧
       (decideB cat sensor fid limit).decision ≠
         some IrrigationDecision.MAINTENANCE_REQUIRED ∧
       (decideB cat sensor fid limit).current_moisture = some v)) := by
  constructor
  · intro sensor v hs0 hv
    obtain ⟨e1, e2, e3, e4⟩ := decideWith_first_invalid msgsE calculate_confidence
      cat sensor fid limit f v hcat hs0 hv
    obtain ⟨b1, b2, b3, b4⟩ := decideWith_first_invalid msgsB confidenceB
      cat sensor fid limit f v hcat hs0 hv
    exact ⟨⟨e1, e2, e3, e4, strContains_middle "Invalid sensor value " (pyFloatRepr v) "%"⟩,
           ⟨b1, b2, b3, b4,
             strContains_middle "Sensor hardware error: impossible value " (pyFloatRepr v) "%"⟩⟩
  · intro sensor v hs0 hv01
    have hv : ¬ (v < 0 ∨ 100 < v) := by
      rcases hv01 with rfl | rfl <;> norm_num
    obtain ⟨e1, e2, e3⟩ := decideWith_first_valid msgsE calculate_confidence
      cat sensor fid limit f v hcat hs0 hv
    obtain ⟨b1, b2, b3⟩ := decideWith_first_valid msgsB confidenceB
      cat sensor fid limit f v hcat hs0 hv
    refine ⟨⟨e1, e2, ?_, e3⟩, ⟨b1, b2, ?_, b3⟩⟩
    · show (decideWith msgsE calculate_confidence cat sensor fid limit).decision ≠
        some IrrigationDecision.MAINTENANCE_REQUIRED
      rw [e2]
      simpa using thresholdDecision_ne_maint f v
    · show (decideWith msgsB confidenceB cat sensor fid limit).decision ≠
        some IrrigationDecision.MAINTENANCE_REQUIRED
      rw [b2]
      simpa using thresholdDecision_ne_maint f v

theorem C4_witness :
    mockCatalog 12 = some ⟨12, CropType.TOMATO, 35, 60, mkRat 95 2, "sandy-loam"⟩ ∧
    ((fun _ => some (-50) : Nat → Option ℚ) 0 = some (-50) ∧
      ((-50:ℚ) < 0 ∨ 100 < (-50:ℚ))) ∧
    (decideE mockCatalog (fun _ => some (-50)) 12 3).decision =
      some IrrigationDecision.MAINTENANCE_REQUIRED :=
  ⟨by decide, ⟨rfl, by decide⟩,
   ((C4_out_of_range mockCatalog 12 3
      ⟨12, CropType.TOMATO, 35, 60, mkRat 95 2, "sandy-loam"⟩ (by decide)).1
      (fun _ => some (-50)) (-50) rfl (by decide)).1.2.1⟩

/-- Claim C5: For a field identifier absent from the catalog, both
`decide` operations return MAINTENANCE_REQUIRED with a non-empty errors
list containing the "not found" message, no moisture value, no optimal
range, and zero sensor attempts (the sensor is never consulted). -/
theorem C5_field_not_found (cat : Int → Option FieldInfo)
    (sensor : Nat → Option ℚ) (fid : Int) (limit : Nat)
    (hcat : cat fid = none) :
    ((decideE cat sensor fid limit).decision =
       some IrrigationDecision.MAINTENANCE_REQUIRED ∧
     (decideE cat sensor fid limit).errors ≠ [] ∧
     ("Field " ++ toString fid ++ " not found") ∈
       (decideE cat sensor fid limit).errors ∧
     strContains ("Field " ++ toString fid ++ " not found") "not found" = true ∧
     (decideE cat sensor fid limit).current_moisture = none ∧
     (decideE cat sensor fid limit).optimal_range = none ∧
     (decideE cat sensor fid limit).sensor_attempts = 0) ∧
    ((decideB cat sensor fid limit).decision =
       some IrrigationDecision.MAINTENANCE_REQUIRED ∧
     (decideB cat sensor fid limit).errors ≠ [] ∧
     ("Field #" ++ toString fid ++ " not found in database") ∈
       (decideB cat sensor fid limit).errors ∧
     strContains ("Field #" ++ toString fid ++ " not found in database")
       "not found" = true ∧
     (decideB cat sensor fid limit).current_moisture = none ∧
     (decideB cat sensor fid limit).optimal_range = none ∧
     (decideB cat sensor fid limit).sensor_attempts = 0) := by
  constructor
  · rw [show decideE cat sensor fid limit =
        decideWith msgsE calculate_confidence cat sensor fid limit from rfl,
      decideWith_eq, runGraph_not_found msgsE cat sensor (limit + 1) fid limit hcat]
    refine ⟨rfl, by simp, by simp [msgsE], ?_, rfl, rfl, rfl⟩
    exact strContains_append_right ("Field " ++ toString fid) " not found"
      "not found" (by decide)
  · rw [show decideB cat sensor fid limit =
        decideWith msgsB confidenceB cat sensor fid limit from rfl,
      decideWith_eq, runGraph_not_found msgsB cat sensor (limit + 1) fid limit hcat]
    refine ⟨rfl, by simp, by simp [msgsB], ?_, rfl, rfl, rfl⟩
    exact strContains_append_right ("Field #" ++ toString fid)
      " not found in database" "not found" (by decide)

theorem C5_witness :
    mockCatalog 999 = none ∧
    (decideE mockCatalog (fun _ => none) 999 3).decision =
      some IrrigationDecision.MAINTENANCE_REQUIRED ∧
    (decideB mockCatalog (fun _ => none) 999 3).sensor_attempts = 0 :=
  ⟨by decide,
   (C5_field_not_found mockCatalog (fun _ => none) 999 3 (by decide)).1.1,
   (C5_field_not_found mockCatalog (fun _ => none) 999 3 (by decide)).2.2.2.2.2.2.2⟩


/-- Claim C6 counterexample: the claim "the report's reason is exactly
the accumulated error strings joined with \"; \" (no additional prefix or
suffix)" fails on the code.  In `irrigation_agent.py` the maintenance
reason carries the prefix "System error requires manual intervention: ";
and in both files the report's errors list is longer than what the
reason joins, because the maintenance node's `{**state}` return
re-appends the whole list through the `operator.add` reducer after the
reason has been computed. -/
theorem C6_counterexample :
    (decideB mockCatalog (fun _ => none) 999 3).reason ≠
      String.intercalate "; " (decideB mockCatalog (fun _ => none) 999 3).errors ∧
    (decideE mockCatalog (fun _ => none) 12 3).reason ≠
      String.intercalate "; " (decideE mockCatalog (fun _ => none) 12 3).errors := by
  decide

/-- Claim C6 amended: Whenever the workflow reaches the Maintenance step,
the decision is MAINTENANCE_REQUIRED and the reported confidence is
"N/A"; the reason is the errors accumulated *at the moment Maintenance
runs* joined with "; " — bare in the enhanced implementation, prefixed
with "System error requires manual intervention: " in the base
implementation.  (The report's errors field itself ends up duplicated
after the reason is computed.) -/
theorem C6_maintenance_report (s : AgentState) :
    (applyUpdate s (maintenance msgsE s)).reason =
      String.intercalate "; " s.errors ∧
    (applyUpdate s (maintenance msgsB s)).reason =
      "System error requires manual intervention: " ++
        String.intercalate "; " s.errors ∧
    (applyUpdate s (maintenance msgsE s)).decision =
      some IrrigationDecision.MAINTENANCE_REQUIRED ∧
    (applyUpdate s (maintenance msgsB s)).decision =
      some IrrigationDecision.MAINTENANCE_REQUIRED ∧
    (∀ (cat : Int → Option FieldInfo) (sensor : Nat → Option ℚ)
        (fid : Int) (limit : Nat),
      (decideE cat sensor fid limit).decision =
        some IrrigationDecision.MAINTENANCE_REQUIRED →
      (decideE cat sensor fid limit).confidence = "N/A") ∧
    (∀ (cat : Int → Option FieldInfo) (sensor : Nat → Option ℚ)
        (fid : Int) (limit : Nat),
      (decideB cat sensor fid limit).decision =
        some IrrigationDecision.MAINTENANCE_REQUIRED →
      (decideB cat sensor fid limit).confidence = "N/A") := by
  refine ⟨rfl, rfl, rfl, rfl, ?_, ?_⟩
  · intro cat sensor fid limit h
    exact decideE_confidence_maint cat sensor fid limit h
  · intro cat sensor fid limit h
    exact decideB_confidence_maint cat sensor fid limit h

theorem C6_witness :
    (applyUpdate (initState 7 3) (maintenance msgsE (initState 7 3))).reason =
      String.intercalate "; " (initState 7 3).errors ∧
    (decideE mockCatalog (fun _ => none) 999 3).decision =
      some IrrigationDecision.MAINTENANCE_REQUIRED ∧
    (decideE mockCatalog (fun _ => none) 999 3).confidence = "N/A" :=
  ⟨(C6_maintenance_report (initState 7 3)).1, by decide,
   (C6_maintenance_report (initState 7 3)).2.2.2.2.1 mockCatalog (fun _ => none)
     999 3 (by decide)⟩

/-- Claim C7 counterexample: for field 12 (min 35, optimal 47.5) a valid
reading of exactly 32.1 does yield IRRIGATE, but the reason cites
"below minimum", not "below optimal": 32.1 < minMoisture = 35, so the
first threshold rule fires before the below-optimal rule.  The spec's
end-to-end scenario 1 contradicts its own rule (a). -/
theorem C7_counterexample :
    (decideE mockCatalog (fun _ => some (mkRat 321 10)) 12 3).decision =
      some IrrigationDecision.IRRIGATE ∧
    strContains (decideE mockCatalog (fun _ => some (mkRat 321 10)) 12 3).reason
      "below optimal" = false ∧
    (decideB mockCatalog (fun _ => some (mkRat 321 10)) 12 3).decision =
      some IrrigationDecision.IRRIGATE ∧
    strContains (decideB mockCatalog (fun _ => some (mkRat 321 10)) 12 3).reason
      "below optimal" = false := by
  decide

/-- Claim C7 amended: for field 12 a single valid reading of exactly 32.1
yields decision IRRIGATE with a reason citing "below minimum" (rule (a):
32.1 < 35), in both implementations. -/
theorem C7_field12_below_minimum :
    (decideE mockCatalog (fun _ => some (mkRat 321 10)) 12 3).decision =
      some IrrigationDecision.IRRIGATE ∧
    (decideE mockCatalog (fun _ => some (mkRat 321 10)) 12 3).reason =
      "Moisture 32.1% below minimum 35.0%" ∧
    strContains (decideE mockCatalog (fun _ => some (mkRat 321 10)) 12 3).reason
      "below minimum" = true ∧
    (decideE mockCatalog (fun _ => some (mkRat 321 10)) 12 3).sensor_attempts = 1 ∧
    (decideB mockCatalog (fun _ => some (mkRat 321 10)) 12 3).decision =
      some IrrigationDecision.IRRIGATE ∧
    (decideB mockCatalog (fun _ => some (mkRat 321 10)) 12 3).reason =
      "Moisture 32.1% is below minimum threshold 35.0%" ∧
    strContains (decideB mockCatalog (fun _ => some (mkRat 321 10)) 12 3).reason
      "below minimum" = true := by
  decide

/-- Claim C8 counterexample: the two implementation files are not
behaviourally equivalent report-for-report.  On field 12 with a valid
reading 32.1 the enhanced file computes confidence "LOW" (distance from
optimal ≥ 10) while the base file hard-codes "HIGH", and the reason
wordings differ, so the reports differ even ignoring timestamps. -/
theorem C8_counterexample :
    (decideE mockCatalog (fun _ => some (mkRat 321 10)) 12 3).confidence = "LOW" ∧
    (decideB mockCatalog (fun _ => some (mkRat 321 10)) 12 3).confidence = "HIGH" ∧
    decideE mockCatalog (fun _ => some (mkRat 321 10)) 12 3 ≠
      decideB mockCatalog (fun _ => some (mkRat 321 10)) 12 3 := by
  decide

/-- Claim C8 amended: for every field identifier and identical
collaborator responses the two decide operations agree on field_id,
decision, current_moisture, optimal_range and sensor_attempts, and their
errors lists have the same length; only the wording of reason, errors
and the confidence policy differ. -/
theorem C8_field_agreement (cat : Int → Option FieldInfo)
    (sensor : Nat → Option ℚ) (fid : Int) (limit : Nat) :
    (decideE cat sensor fid limit).field_id =
      (decideB cat sensor fid limit).field_id ∧
    (decideE cat sensor fid limit).decision =
      (decideB cat sensor fid limit).decision ∧
    (decideE cat sensor fid limit).current_moisture =
      (decideB cat sensor fid limit).current_moisture ∧
    (decideE cat sensor fid limit).optimal_range =
      (decideB cat sensor fid limit).optimal_range ∧
    (decideE cat sensor fid limit).sensor_attempts =
      (decideB cat sensor fid limit).sensor_attempts ∧
    (decideE cat sensor fid limit).errors.length =
      (decideB cat sensor fid limit).errors.length := by
  obtain ⟨h1, h2, h3, h4, h5, h6, h7, h8⟩ :=
    equivER_runGraph msgsE msgsB cat sensor (limit + 1) fid limit
  refine ⟨rfl, h4, h3, ?_, h5, h8⟩
  show Option.map (fun f => (f.min_moisture, f.max_moisture))
      (runGraph msgsE cat sensor (limit + 1) (initState fid limit)).field_info =
    Option.map (fun f => (f.min_moisture, f.max_moisture))
      (runGraph msgsB cat sensor (limit + 1) (initState fid limit)).field_info
  rw [h2]

/-- Claim C9: determinism / noninterference of the core: two Decide calls
whose catalogs agree on the queried field and whose sensor streams agree
on the attempt indices the loop can read (0 .. retryLimit - 1) produce
identical reports (the model carries no timestamp; the Python timestamp
field is the only exclusion).  No other input influences the result. -/
theorem C9_determinism (cat1 cat2 : Int → Option FieldInfo)
    (sensor1 sensor2 : Nat → Option ℚ) (fid : Int) (limit : Nat)
    (hlim : 0 < limit) (hcat : cat1 fid = cat2 fid)
    (hsen : ∀ i, i < limit → sensor1 i = sensor2 i) :
    decideE cat1 sensor1 fid limit = decideE cat2 sensor2 fid limit ∧
    decideB cat1 sensor1 fid limit = decideB cat2 sensor2 fid limit := by
  have hE := runGraph_congr msgsE cat1 cat2 sensor1 sensor2 (limit + 1)
    fid limit hlim hcat hsen
  have hB := runGraph_congr msgsB cat1 cat2 sensor1 sensor2 (limit + 1)
    fid limit hlim hcat hsen
  constructor
  · show decideWith msgsE calculate_confidence cat1 sensor1 fid limit =
      decideWith msgsE calculate_confidence cat2 sensor2 fid limit
    rw [decideWith_eq, decideWith_eq, hE]
  · show decideWith msgsB confidenceB cat1 sensor1 fid limit =
      decideWith msgsB confidenceB cat2 sensor2 fid limit
    rw [decideWith_eq, decideWith_eq, hB]

theorem C9_witness :
    0 < 3 ∧
    mockCatalog 12 = (fun i => if i = 12 then mockCatalog 12 else none) 12 ∧
    decideE mockCatalog (fun _ => none) 12 3 =
      decideE (fun i => if i = 12 then mockCatalog 12 else none)
        (fun i => if i < 3 then none else some 50) 12 3 :=
  ⟨by decide, by decide,
   (C9_determinism mockCatalog (fun i => if i = 12 then mockCatalog 12 else none)
      (fun _ => none) (fun i => if i < 3 then none else some 50) 12 3
      (by decide) (by decide)
      (fun i hi => by
        show (none : Option ℚ) = if i < 3 then none else some 50
        rw [if_pos hi])).1⟩

/-- Claim C10 counterexample: with one timeout then a valid reading the
final report is non-maintenance with sensorAttempts 2, but its errors
list does not contain exactly k = 1 timeout error: the single timeout
message appears four times (the valid `fetch_sensor` exit and the
`validate` node each return `{**state}`, and the `operator.add` reducer
re-appends the accumulated list both times). -/
theorem C10_counterexample :
    (decideE mockCatalog (fun i => if i = 0 then none else some (mkRat 321 10))
      12 3).decision = some IrrigationDecision.IRRIGATE ∧
    (decideE mockCatalog (fun i => if i = 0 then none else some (mkRat 321 10))
      12 3).sensor_attempts = 2 ∧
    (decideE mockCatalog (fun i => if i = 0 then none else some (mkRat 321 10))
      12 3).errors.count "Sensor timeout attempt 1" = 4 ∧
    ¬ (decideE mockCatalog (fun i => if i = 0 then none else some (mkRat 321 10))
      12 3).errors.length = 1 := by
  decide

/-- Claim C10 amended: errors are never cleared by later steps, so a
successful report can carry a non-empty errors list: if the first k
sensor attempts time out (k < retryLimit) and attempt k + 1 returns a
valid value, the enhanced decide returns a non-maintenance threshold
decision with sensorAttempts = k + 1 and an errors list consisting of
the k timeout messages repeated four times (the block is re-appended by
the valid fetch exit and by validate, both returning `{**state}` through
the `operator.add` reducer). -/
theorem C10_errors_never_cleared (cat : Int → Option FieldInfo)
    (sensor : Nat → Option ℚ) (fid : Int) (limit : Nat) (f : FieldInfo)
    (v : ℚ) (k : Nat)
    (hcat : cat fid = some f)
    (hnone : ∀ i, i < k → sensor i = none)
    (hk : sensor k = some v)
    (hrange : ¬ (v < 0 ∨ 100 < v))
    (hbound : k < limit) :
    (decideE cat sensor fid limit).decision = some (thresholdDecision f v) ∧
    (decideE cat sensor fid limit).decision ≠
      some IrrigationDecision.MAINTENANCE_REQUIRED ∧
    (decideE cat sensor fid limit).sensor_attempts = k + 1 ∧
    (decideE cat sensor fid limit).errors =
      retryMsgsFrom msgsE 0 k ++ retryMsgsFrom msgsE 0 k ++
      retryMsgsFrom msgsE 0 k ++ retryMsgsFrom msgsE 0 k ∧
    (decideE cat sensor fid limit).errors.length = 4 * k := by
  obtain ⟨h1, h2, h3, h4⟩ := decideWith_leading_timeouts msgsE calculate_confidence
    cat sensor fid limit f v k hcat hnone hk hrange hbound
  refine ⟨h1, ?_, h2, h4, ?_⟩
  · show (decideWith msgsE calculate_confidence cat sensor fid limit).decision ≠
      some IrrigationDecision.MAINTENANCE_REQUIRED
    rw [h1]
    simpa using thresholdDecision_ne_maint f v
  · show (decideWith msgsE calculate_confidence cat sensor fid limit).errors.length = 4 * k
    rw [h4]
    simp [retryMsgsFrom]
    omega

theorem C10_witness :
    mockCatalog 12 = some ⟨12, CropType.TOMATO, 35, 60, mkRat 95 2, "sandy-loam"⟩ ∧
    1 < 3 ∧
    (decideE mockCatalog (fun i => if i = 0 then none else some (mkRat 321 10))
      12 3).sensor_attempts = 1 + 1 :=
  ⟨by decide, by decide,
   (C10_errors_never_cleared mockCatalog
      (fun i => if i = 0 then none else some (mkRat 321 10)) 12 3
      ⟨12, CropType.TOMATO, 35, 60, mkRat 95 2, "sandy-loam"⟩ (mkRat 321 10) 1
      (by decide)
      (fun i hi => by
        show (if i = 0 then none else some (mkRat 321 10)) = none
        rw [if_pos (show i = 0 by omega)])
      (by decide) (by decide) (by decide)).2.2.1⟩

end Irrigation
